import Mathlib

/-!
# Verification of the TFTP GUI server/client core

Shallow embedding of `src/tftp/TFTPServer.py` and `src/tftp/TftpClient.py`
(repository `TFTP_GUI_Server_Client-dark-or-light`), together with a
spec-modelled packet codec (the codec modules `TftpPacketTypes` /
`TftpPacketFactory` are imported by the source but are not part of the
source tree; they are modelled from the specification).

The server dispatcher (`TftpServer.listen`, lines 58-155) is embedded as a
step function on an explicit server state.  The session contexts
(`TftpContextServer`, from the absent `TftpContexts` module) are opaque to
the dispatcher: the dispatcher only reads their socket, their `state is
None` flag after `cycle()`, and catches `TftpException` from `start()` /
`cycle()`.  Those externally-determined outcomes are supplied as event
data, so every theorem quantifies over all possible session behaviours.
-/

namespace Tftp

/-- Exception classes distinguished by the dispatcher: `listen` catches
`TftpException` from `session.start`/`session.cycle` (lines 116-120 and
128-135 of TFTPServer.py); every other exception class propagates. -/
inductive ExcKind
| tftp
| other
deriving DecidableEq

/-- The dispatcher-visible part of a `TftpContextServer` session: its
ephemeral socket (identified by a number) and its internal retransmission
deadline (held by the context object; the dispatcher never reads it). -/
structure Session where
  sockId : Nat
  deadline : Int
deriving DecidableEq

/-- The mutable state of a `TftpServer` object that `listen` manipulates:
the keyed session map (line 30: `self.sessions = {}`), the two shutdown
flags (lines 32-33) and the `is_running` event (line 31).  `sockClosed`
records whether `self.sock.close()` has run (lines 81/90). -/
structure ServerState where
  sessions : List (String × Session)
  shutdown_gracefully : Bool
  shutdown_immediately : Bool
  is_running : Bool
  sockClosed : Bool
deriving DecidableEq

/-- Line 113 of TFTPServer.py: `key = "%s:%s" % (raddress, rport)`. -/
def sessionKey (raddress : String) (rport : Nat) : String :=
  raddress ++ ":" ++ toString rport

/-- Line 114: `if key not in self.sessions` (membership in the dict). -/
def hasKey (m : List (String × Session)) (k : String) : Bool :=
  m.any (fun p => p.1 == k)

/-- A datagram arriving on the listening socket (lines 107-108), together
with the environment-determined behaviour of the freshly created session:
the socket and deadline the new `TftpContextServer` would allocate, and
whether `start(buffer)` raises (and with which exception class). -/
structure MainEvent where
  raddress : String
  rport : Nat
  newSock : Nat
  newDeadline : Int
  startExc : Option ExcKind
deriving DecidableEq

/-- One ready socket reported by `select` (line 106): either the listening
socket with a datagram, or a session socket becoming ready, carrying the
outcome of that session's `cycle()` (exception class, or the value of
`self.sessions[key].state is None` afterwards). -/
inductive Event
| onMain (e : MainEvent)
| onSess (sockId : Nat) (cycleExc : Option ExcKind) (stateIsNone : Bool)
deriving DecidableEq

/-- Lines 107-123 of TFTPServer.py: handling of a datagram on the listening
socket.  In graceful-shutdown mode the datagram is discarded (lines
109-111).  If the peer key is already in the session map nothing happens
(lines 114, 121-123 only log).  Otherwise a session is allocated and
`start(buffer)` is run: a `TftpException` puts the key on the deletion
list (lines 118-120), other exceptions propagate (`.error`).
Line 115 first: `self.sessions[key] = TftpContextServer(...)` inserts the
fresh session into the map. -/
def withNewSession (s : ServerState) (e : MainEvent) : ServerState :=
  { s with
    sessions :=
      s.sessions ++ [(sessionKey e.raddress e.rport, ⟨e.newSock, e.newDeadline⟩)] }

/-- Lines 106-123 of TFTPServer.py, the `readysock == self.sock` branch:
discard under graceful shutdown (lines 109-111), ignore an already-keyed
peer (line 114), otherwise insert a fresh session and run
`start(buffer)`, catching only `TftpException` (lines 115-120). -/
def handleMain (s : ServerState) (dl : List String) (e : MainEvent) :
    Except ExcKind (ServerState × List String) :=
  if s.shutdown_gracefully then
    .ok (s, dl)
  else if hasKey s.sessions (sessionKey e.raddress e.rport) then
    .ok (s, dl)
  else
    match e.startExc with
    | none => .ok (withNewSession s e, dl)
    | some ExcKind.tftp =>
      .ok (withNewSession s e, dl ++ [sessionKey e.raddress e.rport])
    | some ExcKind.other => .error ExcKind.other

/-- Lines 125-138 of TFTPServer.py: a ready session socket.  The owning
session is the first map entry with that socket (`for key in
self.sessions: if readysock == self.sessions[key].sock`).  `cycle()` is
run: a clean cycle that ends with `state is None` marks the key for
deletion (lines 130-132), a `TftpException` marks it too (lines 133-135),
any other exception propagates; an unknown socket is only logged
(line 138). -/
def handleSess (s : ServerState) (dl : List String) (sockId : Nat)
    (cycleExc : Option ExcKind) (stateIsNone : Bool) :
    Except ExcKind (ServerState × List String) :=
  match s.sessions.find? (fun p => p.2.sockId == sockId) with
  | none => .ok (s, dl)
  | some p =>
    match cycleExc with
    | some ExcKind.tftp => .ok (s, dl ++ [p.1])
    | some ExcKind.other => .error ExcKind.other
    | none => if stateIsNone then .ok (s, dl ++ [p.1]) else .ok (s, dl)

/-- Dispatch of one ready socket (the body of `for readysock in
readyinput`, lines 106-138). -/
def handleEvent (s : ServerState) (dl : List String) :
    Event → Except ExcKind (ServerState × List String)
| .onMain e => handleMain s dl e
| .onSess sockId cycleExc stateIsNone => handleSess s dl sockId cycleExc stateIsNone

/-- The whole `for readysock in readyinput` loop over one iteration's ready
list, threading the state and the per-iteration `deletion_list`
(line 104). -/
def processEvents (s : ServerState) (dl : List String) :
    List Event → Except ExcKind (ServerState × List String)
| [] => .ok (s, dl)
| e :: rest =>
  match handleEvent s dl e with
  | .error k => .error k
  | .ok (s1, dl1) => processEvents s1 dl1 rest

/-- Lines 140-151 of TFTPServer.py: each key on the deletion list that is
still in the map is ended, its metrics logged, and deleted. -/
def deleteSessions (m : List (String × Session)) (dl : List String) :
    List (String × Session) :=
  dl.foldl (fun acc k => acc.filter (fun p => !(p.1 == k))) m

/-- Line 95 of TFTPServer.py: the timeout argument given to
`select.select(inputlist, [], [], timeout)` is the `timeout` parameter of
`listen` itself, whatever the session map holds. -/
def selectTimeout (_s : ServerState) (timeout : Int) : Int :=
  timeout

/-- Modelled from the spec: "The event loop computes a poll timeout as the
minimum of all session deadlines minus now, clamped to 0 and a ceiling
(e.g., 1 second)."  This formula is stated by the specification (section
4.3); it is kept separate from `selectTimeout`, which is what the source
does at line 95, so the two can be compared. -/
def pollTimeoutSpec (now ceiling : Int) (sessions : List (String × Session)) : Int :=
  match sessions.map (fun p => p.2.deadline - now) with
  | [] => ceiling
  | d :: ds => max 0 (min ceiling (ds.foldl min d))

/-- What `select` reports in one iteration of the receive loop: an
interrupted system call (EINTR, lines 96-99: the loop continues), a
non-EINTR select error (lines 100-102: re-raised), or a list of ready
sockets. -/
inductive IterInput
| selectEintr
| selectFail
| ready (events : List Event)
deriving DecidableEq

/-- Outcome of one pass through the `while True` body (lines 78-151). -/
inductive IterStep
| cont (s : ServerState)
| broke (s : ServerState)
| raised (k : ExcKind)
deriving DecidableEq

/-- One iteration of the receive loop, lines 78-151 of TFTPServer.py.
Immediate shutdown (lines 79-85) closes the socket, ends every session,
empties the map and breaks.  Graceful shutdown with an empty session map
(lines 87-91) closes the socket and breaks.  Otherwise `select` runs and
every ready socket is dispatched; the deletion list is applied at the end
of the iteration (lines 140-151). -/
def loopIter (s : ServerState) : IterInput → IterStep := fun input =>
  if s.shutdown_immediately then
    .broke { s with sessions := [], sockClosed := true }
  else if s.shutdown_gracefully && s.sessions.isEmpty then
    .broke { s with sockClosed := true }
  else
    match input with
    | .selectEintr => .cont s
    | .selectFail => .raised ExcKind.other
    | .ready events =>
      match processEvents s [] events with
      | .error k => .raised k
      | .ok (s1, dl) => .cont { s1 with sessions := deleteSessions s1.sessions dl }

/-- Lines 153-155 of TFTPServer.py, run after the loop breaks:
`self.is_running.clear()` and
`self.shutdown_gracefully = self.shutdown_immediately = False`. -/
def listenFinish (s : ServerState) : ServerState :=
  { s with
    is_running := false
    shutdown_gracefully := false
    shutdown_immediately := false }

/-- Line 75 of TFTPServer.py: `self.is_running.set()` before the loop. -/
def listenStart (s : ServerState) : ServerState :=
  { s with is_running := true }

/-- The receive loop run along a finite trace of select outcomes: `some`
with the final state when the loop breaks and lines 153-155 run (a normal
return of `listen`), `none` when the trace is exhausted with the loop
still live or an exception escapes the loop. -/
def listenRun : ServerState → List IterInput → Option ServerState
| _, [] => none
| s, i :: rest =>
  match loopIter s i with
  | .cont s1 => listenRun s1 rest
  | .broke s1 => some (listenFinish s1)
  | .raised _ => none

/-- Lines 157-164 of TFTPServer.py: `stop(now)` sets
`shutdown_immediately` when `now` is true, else `shutdown_gracefully`. -/
def stop (s : ServerState) (now : Bool) : ServerState :=
  if now then { s with shutdown_immediately := true }
  else { s with shutdown_gracefully := true }

/-- The flag state `(is_running, shutdown_gracefully,
shutdown_immediately)` established by `TftpServer.__init__` (lines
31-33): the `is_running` event starts unset, both shutdown flags start
`False`. -/
def initFlagState : Bool × Bool × Bool :=
  (false, false, false)

/-- The filesystem facts about the configured tftp root that
`TftpServer.__init__` queries (lines 36-41 of TFTPServer.py):
`os.path.exists`, `os.path.isdir`, `os.access(..., R_OK)`,
`os.access(..., W_OK)`. -/
structure RootFS where
  pathExists : Bool
  isDir : Bool
  readable : Bool
  writable : Bool
deriving DecidableEq

/-- Lines 35-44 of TFTPServer.py, the root-directory validation in
`TftpServer.__init__`.  `.error` is a raised `TftpException` with the
source's message; `.ok warned` is successful construction, `warned`
recording whether the "not writable" warning was logged (line 42). -/
def serverInitCheck (fs : RootFS) : Except String Bool :=
  if fs.pathExists then
    if !fs.isDir then .error "The tftproot must be a directory."
    else if !fs.readable then .error "The tftproot must be readable."
    else if !fs.writable then .ok true
    else .ok false
  else .error "The tftproot does not exist."

/-- Modelled from the spec: `MIN_BLKSIZE` and `MAX_BLKSIZE` are imported
from the `TftpShared` module, which is not part of the source tree; the
specification fixes the negotiated range as "blksize ∈ [8, 65464]". -/
def MIN_BLKSIZE : Int := 8

/-- Modelled from the spec: see `MIN_BLKSIZE`. -/
def MAX_BLKSIZE : Int := 65464

/-- Lines 30-34 of TftpClient.py, the option validation in
`TftpClient.__init__`: if the options map holds a `blksize` entry and its
(integer) value satisfies `size < MIN_BLKSIZE or size > MAX_BLKSIZE`, a
`TftpException "Invalid blksize: %d"` is raised; otherwise construction
succeeds.  The `tftpassert(int == type(size), ...)` guard is absorbed by
typing the map's values as integers. -/
def clientInitCheck (options : List (String × Int)) : Except String Unit :=
  match options.lookup "blksize" with
  | none => .ok ()
  | some size =>
    if size < MIN_BLKSIZE || size > MAX_BLKSIZE then
      .error "Invalid blksize"
    else .ok ()

/-- Lines 78-93 of TftpClient.py, `TftpClient.get_file_size`.  The call
`self.download(filename, output)` into a fresh `io.BytesIO()` buffer is
abstracted by an oracle `download` giving, for each filename, either the
bytes the download writes into the buffer or the exception it raises;
the method returns `output.getbuffer().nbytes` on success and `-1` from
the `except Exception` branch. -/
def get_file_size (download : String → Except String (List Nat))
    (filename : String) : Int :=
  match download filename with
  | .ok buf => (buf.length : Int)
  | .error _ => -1

/-- The attributes and methods defined on a `TftpServer` object by the
source: `__init__` (lines 22-44) binds the listed attributes, and the
class body defines the three methods.  Modelled from the spec for the
base class: `TftpSession` comes from the absent `TftpShared` module, and
the specification records that `write_to_file` "is not defined on the
server object". -/
def tftpServerMembers : List String :=
  ["listenip", "listenport", "sock", "root", "dyn_file_func",
   "upload_open", "sessions", "is_running", "shutdown_gracefully",
   "shutdown_immediately", "handle_write_request", "listen", "stop"]

/-- Observable outcome of one `handle_write_request` call: whether any
payload bytes were written to the opened file, whether the error branch
logged, and whether an exception escaped to the caller. -/
structure WriteReqOutcome where
  wroteData : Bool
  loggedError : Bool
  raised : Bool
deriving DecidableEq

/-- Lines 46-56 of TFTPServer.py, `TftpServer.handle_write_request`.
`openOk` says whether `open(filepath, 'wb')` succeeds.  Inside the `try`,
the body evaluates `self.write_to_file(file)`: if the attribute existed
the file would be written, but the lookup on a `TftpServer` raises
`AttributeError`, which the bare `except Exception` catches and logs; an
open failure lands in the same handler.  No exception propagates. -/
def handle_write_request (openOk : Bool) : WriteReqOutcome :=
  if openOk then
    if tftpServerMembers.contains "write_to_file" then
      { wroteData := true, loggedError := false, raised := false }
    else
      { wroteData := false, loggedError := true, raised := false }
  else
    { wroteData := false, loggedError := true, raised := false }

/-- Modelled from the spec: the packet codec lives in the
`TftpPacketTypes` / `TftpPacketFactory` modules, which the source imports
but which are not part of the source tree.  Section 3 of the
specification gives the data model: a tagged variant over
{RRQ, WRQ, DATA, ACK, ERROR, OACK}, with octet-string fields held as
byte lists and an option map as an ordered list of name/value pairs. -/
inductive Packet
| rrq (filename mode : List Nat) (options : List (List Nat × List Nat))
| wrq (filename mode : List Nat) (options : List (List Nat × List Nat))
| data (blocknum : Nat) (payload : List Nat)
| ack (blocknum : Nat)
| err (code : Nat) (errmsg : List Nat)
| oack (options : List (List Nat × List Nat))
deriving DecidableEq

/-- A 16-bit field in network byte order (high byte first), truncating to
16 bits as a 2-byte wire field does. -/
def enc16 (n : Nat) : List Nat :=
  [n / 256 % 256, n % 256]

/-- Modelled from the spec: option entries are serialized in the input
order, each name and value NUL-terminated (sections 3 and 4.1). -/
def encodeOptions (opts : List (List Nat × List Nat)) : List Nat :=
  opts.foldr (fun p acc => p.1 ++ 0 :: (p.2 ++ 0 :: acc)) []

/-- Modelled from the spec: `encode(Packet) -> bytes`, the exact on-wire
form of section 3: 2-byte big-endian opcode (RRQ=1, WRQ=2, DATA=3, ACK=4,
ERROR=5, OACK=6) followed by the type-specific fields; RRQ/WRQ/ERROR/OACK
string fields NUL-terminated. -/
def Packet.encode : Packet → List Nat
| .rrq f m o => 0 :: 1 :: (f ++ 0 :: (m ++ 0 :: encodeOptions o))
| .wrq f m o => 0 :: 2 :: (f ++ 0 :: (m ++ 0 :: encodeOptions o))
| .data b p => 0 :: 3 :: (enc16 b ++ p)
| .ack b => 0 :: 4 :: enc16 b
| .err c m => 0 :: 5 :: (enc16 c ++ (m ++ [0]))
| .oack o => 0 :: 6 :: encodeOptions o

/-- Splits a buffer into its NUL-terminated fields; `none` when a
trailing field is not NUL-terminated (a decode failure per section
4.1). -/
def splitFields : List Nat → Option (List (List Nat))
| [] => some []
| b :: rest =>
  if b = 0 then
    Option.map (fun fs => [] :: fs) (splitFields rest)
  else
    match splitFields rest with
    | some (f :: fs) => some ((b :: f) :: fs)
    | _ => none

/-- Pairs up a field list into option name/value entries; `none` when the
option list has an odd number of fields (a decode failure per section
4.1). -/
def pairFields : List (List Nat) → Option (List (List Nat × List Nat))
| [] => some []
| [_] => none
| n :: v :: rest => Option.map (fun os => (n, v) :: os) (pairFields rest)

/-- Reads one NUL-terminated string from the front of a buffer, returning
it with the remaining bytes; `none` when no NUL is found. -/
def parseCString : List Nat → Option (List Nat × List Nat)
| [] => none
| b :: rest =>
  if b = 0 then some ([], rest)
  else
    match parseCString rest with
    | some (s, r) => some (b :: s, r)
    | none => none

/-- Byte-wise ASCII lowercasing, for the case-insensitive mode check. -/
def lowerByte (b : Nat) : Nat :=
  if 65 ≤ b ∧ b ≤ 90 then b + 32 else b

/-- The bytes of "netascii". -/
def modeNetascii : List Nat := [110, 101, 116, 97, 115, 99, 105, 105]

/-- The bytes of "octet". -/
def modeOctet : List Nat := [111, 99, 116, 101, 116]

/-- The bytes of "mail". -/
def modeMail : List Nat := [109, 97, 105, 108]

/-- Modelled from the spec: the mode on RRQ/WRQ must be one of the three
RFC-listed modes, compared case-insensitively (section 4.1). -/
def validMode (m : List Nat) : Bool :=
  let l := m.map lowerByte
  l == modeNetascii || l == modeOctet || l == modeMail

/-- Modelled from the spec: decoding of the common RRQ/WRQ body —
NUL-terminated filename and mode followed by the option list
(sections 3 and 4.1). -/
def decodeReq (isRead : Bool) (buf : List Nat) : Option Packet :=
  match splitFields buf with
  | some (f :: m :: rest) =>
    if validMode m then
      match pairFields rest with
      | some opts => some (if isRead then .rrq f m opts else .wrq f m opts)
      | none => none
    else none
  | _ => none

/-- Modelled from the spec: `decode(bytes) -> Packet` of section 4.1.
Fails (returns `none`, the MalformedPacket outcome) when the buffer is
shorter than 2 bytes, the opcode is outside 1..6, a NUL-terminated field
is missing, the option list has an odd number of fields, a DATA/ACK
packet is shorter than 4 bytes, or the mode is not an RFC-listed one. -/
def Packet.decode : List Nat → Option Packet
| b0 :: b1 :: rest =>
  let opcode := b0 * 256 + b1
  if opcode = 1 then decodeReq true rest
  else if opcode = 2 then decodeReq false rest
  else if opcode = 3 then
    match rest with
    | h :: l :: payload => some (.data (h * 256 + l) payload)
    | _ => none
  else if opcode = 4 then
    match rest with
    | h :: l :: _ => some (.ack (h * 256 + l))
    | _ => none
  else if opcode = 5 then
    match rest with
    | h :: l :: msgbuf =>
      match parseCString msgbuf with
      | some (msg, _) => some (.err (h * 256 + l) msg)
      | none => none
    | _ => none
  else if opcode = 6 then
    match splitFields rest with
    | some fields =>
      match pairFields fields with
      | some opts => some (.oack opts)
      | none => none
    | none => none
  else none
| _ => none

/-- A legal octet-string field: byte-valued and free of NUL bytes. -/
def cstringOk (s : List Nat) : Bool :=
  s.all (fun b => decide (b ≠ 0) && decide (b < 256))

/-- Legal option entries: names and values are legal octet strings. -/
def optionsOk (opts : List (List Nat × List Nat)) : Bool :=
  opts.all (fun p => cstringOk p.1 && cstringOk p.2)

/-- A legal mode field, as the data model states it (section 3): one of
the three RFC-listed mode strings. -/
def modeLegal (m : List Nat) : Bool :=
  m == modeNetascii || m == modeOctet || m == modeMail

/-- Modelled from the spec: a legal Packet per the data model of section
3 — 16-bit block numbers and error codes, byte-valued payloads,
NUL-free string fields, an RFC-listed mode. -/
def Packet.legal : Packet → Bool
| .rrq f m o => cstringOk f && modeLegal m && optionsOk o
| .wrq f m o => cstringOk f && modeLegal m && optionsOk o
| .data b p => decide (b < 65536) && p.all (fun x => decide (x < 256))
| .ack b => decide (b < 65536)
| .err c m => decide (c < 65536) && cstringOk m
| .oack o => optionsOk o

/-- Observer telling whether a modelled call raised (the `.error` arm of
the embedding, a Python exception in the source). -/
def isError {ε α : Type} : Except ε α → Bool
| .error _ => true
| .ok _ => false

end Tftp

namespace Tftp

/-! ## Codec lemmas -/

theorem cstringOk_noNul {s : List Nat} (h : cstringOk s = true) :
    ∀ b ∈ s, b ≠ 0 := by
  intro b hb
  have := List.all_eq_true.mp h b hb
  simp only [Bool.and_eq_true, decide_eq_true_eq] at this
  exact this.1

theorem splitFields_append {s : List Nat} (h : ∀ b ∈ s, b ≠ 0)
    (rest : List Nat) :
    splitFields (s ++ 0 :: rest) =
      Option.map (fun fs => s :: fs) (splitFields rest) := by
  induction s with
  | nil =>
    simp [splitFields]
  | cons a s ih =>
    have ha : a ≠ 0 := h a (List.mem_cons_self a s)
    have ih1 := ih (fun b hb => h b (List.mem_cons_of_mem a hb))
    simp only [List.cons_append, splitFields, if_neg ha, List.append_eq, ih1]
    cases splitFields rest <;> rfl

theorem fieldsOfOptions_noNul {opts : List (List Nat × List Nat)}
    (h : optionsOk opts = true) :
    ∀ p ∈ opts, (∀ b ∈ p.1, b ≠ 0) ∧ (∀ b ∈ p.2, b ≠ 0) := by
  intro p hp
  have := List.all_eq_true.mp h p hp
  simp only [Bool.and_eq_true] at this
  exact ⟨cstringOk_noNul this.1, cstringOk_noNul this.2⟩

theorem splitFields_encodeOptions {opts : List (List Nat × List Nat)}
    (h : optionsOk opts = true) :
    splitFields (encodeOptions opts) =
      some (opts.foldr (fun p acc => p.1 :: p.2 :: acc) []) := by
  induction opts with
  | nil => rfl
  | cons p opts ih =>
    have hp := fieldsOfOptions_noNul h p (List.mem_cons_self p opts)
    have htail : optionsOk opts = true := by
      simp only [optionsOk, List.all_cons, Bool.and_eq_true] at h
      exact h.2
    have ih1 := ih htail
    simp only [encodeOptions, List.foldr_cons] at *
    rw [splitFields_append hp.1, splitFields_append hp.2, ih1]
    rfl

theorem pairFields_foldr (opts : List (List Nat × List Nat)) :
    pairFields (opts.foldr (fun p acc => p.1 :: p.2 :: acc) []) = some opts := by
  induction opts with
  | nil => rfl
  | cons p opts ih =>
    simp only [List.foldr_cons, pairFields, ih, Option.map_some]
    rfl

theorem parseCString_append {s : List Nat} (h : ∀ b ∈ s, b ≠ 0)
    (rest : List Nat) :
    parseCString (s ++ 0 :: rest) = some (s, rest) := by
  induction s with
  | nil => simp [parseCString]
  | cons a s ih =>
    have ha : a ≠ 0 := h a (List.mem_cons_self a s)
    have ih1 := ih (fun b hb => h b (List.mem_cons_of_mem a hb))
    simp [parseCString, if_neg ha, ih1]

theorem dec16_enc16 {n : Nat} (h : n < 65536) :
    n / 256 % 256 * 256 + n % 256 = n := by
  omega

theorem modeLegal_noNul {m : List Nat} (h : modeLegal m = true) :
    ∀ b ∈ m, b ≠ 0 := by
  simp only [modeLegal, Bool.or_eq_true, beq_iff_eq] at h
  rcases h with (h | h) | h <;> subst h <;> decide

theorem modeLegal_valid {m : List Nat} (h : modeLegal m = true) :
    validMode m = true := by
  simp only [modeLegal, Bool.or_eq_true, beq_iff_eq] at h
  rcases h with (h | h) | h <;> subst h <;> decide

end Tftp
namespace Tftp

/-- C7: for every legal Packet value of the six TFTP packet types (RRQ,
WRQ, DATA, ACK, ERROR, OACK), decoding the encoding yields the same
packet: `decode(encode(P)) == P`. -/
theorem codec_roundtrip :
    ∀ P : Packet, P.legal = true → Packet.decode P.encode = some P := by
  intro P hP
  cases P with
  | rrq f m o =>
    simp only [Packet.legal, Bool.and_eq_true] at hP
    obtain ⟨⟨hf, hm⟩, ho⟩ := hP
    have hfn := cstringOk_noNul hf
    have hmn := modeLegal_noNul hm
    simp only [Packet.encode, Packet.decode]
    norm_num
    rw [decodeReq, splitFields_append hfn, splitFields_append hmn,
      splitFields_encodeOptions ho]
    simp [modeLegal_valid hm, pairFields_foldr]
  | wrq f m o =>
    simp only [Packet.legal, Bool.and_eq_true] at hP
    obtain ⟨⟨hf, hm⟩, ho⟩ := hP
    have hfn := cstringOk_noNul hf
    have hmn := modeLegal_noNul hm
    simp only [Packet.encode, Packet.decode]
    norm_num
    rw [decodeReq, splitFields_append hfn, splitFields_append hmn,
      splitFields_encodeOptions ho]
    simp [modeLegal_valid hm, pairFields_foldr]
  | data b p =>
    simp only [Packet.legal, Bool.and_eq_true, decide_eq_true_eq] at hP
    simp only [Packet.encode, enc16, Packet.decode, List.cons_append]
    norm_num
    exact dec16_enc16 hP.1
  | ack b =>
    simp only [Packet.legal, decide_eq_true_eq] at hP
    simp only [Packet.encode, enc16, Packet.decode]
    norm_num
    exact dec16_enc16 hP
  | err c m =>
    simp only [Packet.legal, Bool.and_eq_true, decide_eq_true_eq] at hP
    have hmn := cstringOk_noNul hP.2
    simp only [Packet.encode, enc16, Packet.decode, List.cons_append]
    norm_num
    rw [show m ++ [0] = m ++ 0 :: [] from rfl, parseCString_append hmn]
    simp [dec16_enc16 hP.1]
  | oack o =>
    simp only [Packet.legal] at hP
    simp only [Packet.encode, Packet.decode]
    norm_num
    rw [splitFields_encodeOptions hP]
    simp [pairFields_foldr]

end Tftp
namespace Tftp

/-! ## Dispatcher lemmas -/

theorem handleMain_flags {s : ServerState} {dl : List String} {e : MainEvent}
    {s1 : ServerState} {dl1 : List String}
    (h : handleMain s dl e = .ok (s1, dl1)) :
    s1.shutdown_gracefully = s.shutdown_gracefully ∧
    s1.shutdown_immediately = s.shutdown_immediately ∧
    s1.is_running = s.is_running := by
  unfold handleMain at h
  repeat' split at h
  all_goals
    first
    | (injection h with h1; injection h1 with h2 h3; subst h2; exact ⟨rfl, rfl, rfl⟩)
    | injection h

theorem handleSess_flags {s : ServerState} {dl : List String} {sockId : Nat}
    {cycleExc : Option ExcKind} {stateIsNone : Bool}
    {s1 : ServerState} {dl1 : List String}
    (h : handleSess s dl sockId cycleExc stateIsNone = .ok (s1, dl1)) :
    s1.shutdown_gracefully = s.shutdown_gracefully ∧
    s1.shutdown_immediately = s.shutdown_immediately ∧
    s1.is_running = s.is_running := by
  unfold handleSess at h
  repeat' split at h
  all_goals
    first
    | (injection h with h1; injection h1 with h2 h3; subst h2; exact ⟨rfl, rfl, rfl⟩)
    | injection h

theorem handleEvent_flags {s : ServerState} {dl : List String} {ev : Event}
    {s1 : ServerState} {dl1 : List String}
    (h : handleEvent s dl ev = .ok (s1, dl1)) :
    s1.shutdown_gracefully = s.shutdown_gracefully ∧
    s1.shutdown_immediately = s.shutdown_immediately ∧
    s1.is_running = s.is_running := by
  cases ev with
  | onMain e => exact handleMain_flags h
  | onSess a b c => exact handleSess_flags h

theorem processEvents_flags {events : List Event} :
    ∀ {s : ServerState} {dl : List String} {s1 : ServerState} {dl1 : List String},
    processEvents s dl events = .ok (s1, dl1) →
    s1.shutdown_gracefully = s.shutdown_gracefully ∧
    s1.shutdown_immediately = s.shutdown_immediately ∧
    s1.is_running = s.is_running := by
  induction events with
  | nil =>
    intro s dl s1 dl1 h
    injection h with h1; injection h1 with h2 h3; subst h2
    exact ⟨rfl, rfl, rfl⟩
  | cons e rest ih =>
    intro s dl s1 dl1 h
    unfold processEvents at h
    cases hev : handleEvent s dl e with
    | error k => rw [hev] at h; exact absurd h (by simp)
    | ok p =>
      rw [hev] at h
      obtain ⟨s2, dl2⟩ := p
      have h1 := handleEvent_flags hev
      have h2 := ih h
      exact ⟨h2.1.trans h1.1, h2.2.1.trans h1.2.1, h2.2.2.trans h1.2.2⟩

theorem loopIter_cont_flags {s : ServerState} {i : IterInput} {s1 : ServerState}
    (h : loopIter s i = .cont s1) :
    s1.shutdown_gracefully = s.shutdown_gracefully ∧
    s1.shutdown_immediately = s.shutdown_immediately ∧
    s1.is_running = s.is_running := by
  unfold loopIter at h
  split at h
  · exact absurd h (by simp)
  · split at h
    · exact absurd h (by simp)
    · cases i with
      | selectEintr =>
        injection h with h1; subst h1; exact ⟨rfl, rfl, rfl⟩
      | selectFail => exact absurd h (by simp)
      | ready events =>
        simp only at h
        cases hev : processEvents s [] events with
        | error k => rw [hev] at h; exact absurd h (by simp)
        | ok p =>
          rw [hev] at h
          obtain ⟨s2, dl⟩ := p
          injection h with h1
          subst h1
          have hf := processEvents_flags hev
          exact ⟨hf.1, hf.2.1, hf.2.2⟩

theorem loopIter_broke_empty {s : ServerState} {i : IterInput} {s1 : ServerState}
    (himm : s.shutdown_immediately = false)
    (h : loopIter s i = .broke s1) :
    s.sessions = [] := by
  unfold loopIter at h
  rw [himm] at h
  simp only [if_neg (Bool.false_ne_true)] at h
  split at h
  · rename_i hg
    have := (Bool.and_eq_true _ _).mp hg
    exact List.isEmpty_iff.mp this.2
  · cases i with
    | selectEintr => exact absurd h (by simp)
    | selectFail => exact absurd h (by simp)
    | ready events =>
      simp only at h
      cases hev : processEvents s [] events with
      | error k => rw [hev] at h; exact absurd h (by simp)
      | ok p => rw [hev] at h; obtain ⟨s2, dl⟩ := p; exact absurd h (by simp)

theorem listenRun_finish {tr : List IterInput} :
    ∀ {s s1 : ServerState}, listenRun s tr = some s1 →
    ∃ s0, s1 = listenFinish s0 := by
  induction tr with
  | nil => intro s s1 h; exact absurd h (by simp [listenRun])
  | cons i rest ih =>
    intro s s1 h
    unfold listenRun at h
    cases hit : loopIter s i with
    | cont s2 => rw [hit] at h; exact ih h
    | broke s2 =>
      rw [hit] at h
      injection h with h1
      exact ⟨s2, h1.symm⟩
    | raised k => rw [hit] at h; exact absurd h (by simp)

end Tftp
namespace Tftp

theorem hasKey_filter_self (m : List (String × Session)) (k : String) :
    hasKey (m.filter (fun p => !(p.1 == k))) k = false := by
  induction m with
  | nil => rfl
  | cons p m ih =>
    by_cases hp : p.1 == k
    · simp [List.filter, hp, ih]
    · simp only [List.filter, hp, Bool.not_false]
      simp [hasKey, hp, ih]

theorem hasKey_filter_of_not {m : List (String × Session)} {k : String}
    (f : String × Session → Bool) (h : hasKey m k = false) :
    hasKey (m.filter f) k = false := by
  induction m with
  | nil => rfl
  | cons p m ih =>
    simp only [hasKey, List.any_cons, Bool.or_eq_false_iff] at h
    by_cases hp : f p
    · simp only [List.filter, hp, hasKey, List.any_cons, Bool.or_eq_false_iff]
      exact ⟨h.1, ih h.2⟩
    · simp only [List.filter, hp]
      exact ih h.2

theorem hasKey_deleteSessions_of_not {dl : List String} :
    ∀ {m : List (String × Session)} {k : String}, hasKey m k = false →
    hasKey (deleteSessions m dl) k = false := by
  induction dl with
  | nil => intro m k h; exact h
  | cons d dl ih =>
    intro m k h
    unfold deleteSessions at *
    simp only [List.foldl_cons]
    exact ih (hasKey_filter_of_not _ h)

theorem hasKey_deleteSessions {dl : List String} :
    ∀ {m : List (String × Session)} {k : String}, k ∈ dl →
    hasKey (deleteSessions m dl) k = false := by
  induction dl with
  | nil => intro m k h; exact absurd h (List.not_mem_nil k)
  | cons d dl ih =>
    intro m k h
    rcases List.mem_cons.mp h with h1 | h1
    · subst h1
      unfold deleteSessions
      simp only [List.foldl_cons]
      exact hasKey_deleteSessions_of_not (hasKey_filter_self m k)
    · unfold deleteSessions
      simp only [List.foldl_cons]
      exact ih h1

end Tftp
namespace Tftp

/-! ## Claim theorems -/

/-- C1: graceful shutdown never leaks sessions.  After `stop()` without
the immediate flag (`shutdown_gracefully` set, `shutdown_immediately`
kept false): (i) every datagram arriving on the listening socket is
discarded without creating a session or changing anything; (ii) loop
iterations never clear the graceful flag, so this holds for every later
datagram too; (iii) the loop breaks, in non-immediate mode, only in an
iteration where the session map is empty; (iv) whenever the loop has
exited and `listen` returns, `is_running` is false. -/
theorem graceful_shutdown_no_session_leak :
    (∀ (s : ServerState) (dl : List String) (e : MainEvent),
      s.shutdown_gracefully = true →
      handleEvent s dl (.onMain e) = .ok (s, dl)) ∧
    (∀ (s : ServerState) (i : IterInput) (s1 : ServerState),
      loopIter s i = .cont s1 →
      s1.shutdown_gracefully = s.shutdown_gracefully) ∧
    (∀ (s : ServerState) (i : IterInput) (s1 : ServerState),
      s.shutdown_immediately = false → loopIter s i = .broke s1 →
      s.sessions = []) ∧
    (∀ (s : ServerState) (tr : List IterInput) (s1 : ServerState),
      listenRun s tr = some s1 → s1.is_running = false) := by
  refine ⟨?_, ?_, ?_, ?_⟩
  · intro s dl e h
    simp [handleEvent, handleMain, h]
  · intro s i s1 h
    exact (loopIter_cont_flags h).1
  · intro s i s1 himm h
    exact loopIter_broke_empty himm h
  · intro s tr s1 h
    obtain ⟨s0, rfl⟩ := listenRun_finish h
    rfl

theorem graceful_shutdown_no_session_leak_witness :
    handleEvent
      { sessions := [("9.9.9.9:69", ⟨3, 0⟩)], shutdown_gracefully := true,
        shutdown_immediately := false, is_running := true, sockClosed := false } []
      (.onMain ⟨"1.2.3.4", 5, 7, 11, none⟩) =
      .ok ({ sessions := [("9.9.9.9:69", ⟨3, 0⟩)], shutdown_gracefully := true,
             shutdown_immediately := false, is_running := true, sockClosed := false }, []) ∧
    ({ sessions := [], shutdown_gracefully := false, shutdown_immediately := false,
       is_running := true, sockClosed := false } : ServerState).shutdown_gracefully =
      ({ sessions := [], shutdown_gracefully := false, shutdown_immediately := false,
         is_running := true, sockClosed := false } : ServerState).shutdown_gracefully ∧
    ({ sessions := [], shutdown_gracefully := true, shutdown_immediately := false,
       is_running := true, sockClosed := false } : ServerState).sessions = [] ∧
    ({ sessions := [], shutdown_gracefully := false, shutdown_immediately := false,
       is_running := false, sockClosed := true } : ServerState).is_running = false :=
  ⟨graceful_shutdown_no_session_leak.1 _ [] ⟨"1.2.3.4", 5, 7, 11, none⟩ rfl,
   graceful_shutdown_no_session_leak.2.1
     { sessions := [], shutdown_gracefully := false, shutdown_immediately := false,
       is_running := true, sockClosed := false } .selectEintr _ rfl,
   graceful_shutdown_no_session_leak.2.2.1
     { sessions := [], shutdown_gracefully := true, shutdown_immediately := false,
       is_running := true, sockClosed := false } .selectEintr
     { sessions := [], shutdown_gracefully := true, shutdown_immediately := false,
       is_running := true, sockClosed := true } rfl rfl,
   graceful_shutdown_no_session_leak.2.2.2
     { sessions := [], shutdown_gracefully := true, shutdown_immediately := false,
       is_running := true, sockClosed := false } [.selectEintr] _ rfl⟩

/-- C2: a datagram on the listening socket whose source endpoint is
already a key in the session map creates no session, is not handed to
the existing session, and leaves the state (and the deletion list)
exactly as they were: the duplicate initial request is silently
ignored. -/
theorem duplicate_initial_request_ignored :
    ∀ (s : ServerState) (dl : List String) (e : MainEvent),
      hasKey s.sessions (sessionKey e.raddress e.rport) = true →
      handleEvent s dl (.onMain e) = .ok (s, dl) := by
  intro s dl e h
  by_cases hg : s.shutdown_gracefully = true
  · simp [handleEvent, handleMain, hg]
  · simp only [Bool.not_eq_true] at hg
    simp [handleEvent, handleMain, hg, h]

theorem duplicate_initial_request_ignored_witness :
    handleEvent
      { sessions := [("1.2.3.4:5", ⟨7, 2⟩)], shutdown_gracefully := false,
        shutdown_immediately := false, is_running := true, sockClosed := false } []
      (.onMain ⟨"1.2.3.4", 5, 8, 9, some ExcKind.other⟩) =
      .ok ({ sessions := [("1.2.3.4:5", ⟨7, 2⟩)], shutdown_gracefully := false,
             shutdown_immediately := false, is_running := true, sockClosed := false }, []) :=
  duplicate_initial_request_ignored _ [] ⟨"1.2.3.4", 5, 8, 9, some ExcKind.other⟩
    (by decide)

/-- C3 counterexample: the claim says the timeout passed to `select`
equals the minimum over all sessions of (deadline minus now) clamped to
0 and a ceiling; but with one session whose deadline is `now` (spec
formula: 0) and `timeout = 5`, the source passes 5. -/
theorem select_timeout_ignores_deadlines_cex :
    ¬ (selectTimeout
        { sessions := [("1.2.3.4:5", ⟨7, 10⟩)], shutdown_gracefully := false,
          shutdown_immediately := false, is_running := true, sockClosed := false } 5 =
       pollTimeoutSpec 10 1 [("1.2.3.4:5", ⟨7, 10⟩)]) := by
  decide

/-- C3 (amended): on every iteration, the timeout passed to `select` is
the `timeout` parameter that `listen` received, independent of the
session map and of any session deadline. -/
theorem select_timeout_is_constant :
    ∀ (s : ServerState) (timeout : Int), selectTimeout s timeout = timeout := by
  intro s timeout
  rfl

/-- C4 counterexample: the claim says every exception from session
`start()`/`cycle()` is caught and none propagates out of `listen`; but a
non-`TftpException` from `start()` escapes the iteration (`.raised`) and
the run never reaches the normal-return epilogue. -/
theorem non_tftp_exception_escapes_loop_cex :
    loopIter
      { sessions := [], shutdown_gracefully := false, shutdown_immediately := false,
        is_running := true, sockClosed := false }
      (.ready [.onMain ⟨"1.2.3.4", 5, 7, 11, some ExcKind.other⟩]) =
      .raised ExcKind.other ∧
    listenRun
      { sessions := [], shutdown_gracefully := false, shutdown_immediately := false,
        is_running := true, sockClosed := false }
      [.ready [.onMain ⟨"1.2.3.4", 5, 7, 11, some ExcKind.other⟩]] = none := by
  constructor <;> rfl

/-- C4 (amended): every `TftpException` raised by session `start()` or
`cycle()` is caught at the session boundary: the loop logs it and marks
the session's key for deletion, and at the end of the iteration every
marked key has been removed from the session map; exceptions of other
classes propagate out of `listen` (see the counterexample). -/
theorem tftp_exception_caught_and_session_deallocated :
    (∀ (s : ServerState) (dl : List String) (e : MainEvent),
      s.shutdown_gracefully = false →
      hasKey s.sessions (sessionKey e.raddress e.rport) = false →
      e.startExc = some ExcKind.tftp →
      handleMain s dl e =
        .ok (withNewSession s e, dl ++ [sessionKey e.raddress e.rport])) ∧
    (∀ (s : ServerState) (dl : List String) (sockId : Nat) (stateIsNone : Bool)
        (p : String × Session),
      s.sessions.find? (fun q => q.2.sockId == sockId) = some p →
      handleSess s dl sockId (some ExcKind.tftp) stateIsNone = .ok (s, dl ++ [p.1])) ∧
    (∀ (m : List (String × Session)) (dl : List String) (k : String),
      k ∈ dl → hasKey (deleteSessions m dl) k = false) := by
  refine ⟨?_, ?_, ?_⟩
  · intro s dl e hg hk hs
    simp [handleMain, hg, hk, hs]
  · intro s dl sockId st p hp
    simp [handleSess, hp]
  · intro m dl k hk
    exact hasKey_deleteSessions hk

theorem tftp_exception_caught_and_session_deallocated_witness :
    handleMain
      { sessions := [], shutdown_gracefully := false, shutdown_immediately := false,
        is_running := true, sockClosed := false } []
      ⟨"1.2.3.4", 5, 7, 11, some ExcKind.tftp⟩ =
      .ok (withNewSession
            { sessions := [], shutdown_gracefully := false, shutdown_immediately := false,
              is_running := true, sockClosed := false }
            ⟨"1.2.3.4", 5, 7, 11, some ExcKind.tftp⟩,
           [] ++ [sessionKey "1.2.3.4" 5]) ∧
    handleSess
      { sessions := [("1.2.3.4:5", ⟨7, 2⟩)], shutdown_gracefully := false,
        shutdown_immediately := false, is_running := true, sockClosed := false } []
      7 (some ExcKind.tftp) false =
      .ok ({ sessions := [("1.2.3.4:5", ⟨7, 2⟩)], shutdown_gracefully := false,
             shutdown_immediately := false, is_running := true, sockClosed := false },
           [] ++ ["1.2.3.4:5"]) ∧
    hasKey (deleteSessions [("1.2.3.4:5", ⟨7, 2⟩)] ["1.2.3.4:5"]) "1.2.3.4:5" = false :=
  ⟨tftp_exception_caught_and_session_deallocated.1 _ [] ⟨"1.2.3.4", 5, 7, 11, some ExcKind.tftp⟩
      rfl (by decide) rfl,
   tftp_exception_caught_and_session_deallocated.2.1 _ [] 7 false ("1.2.3.4:5", ⟨7, 2⟩)
      (by decide),
   tftp_exception_caught_and_session_deallocated.2.2 [("1.2.3.4:5", ⟨7, 2⟩)] ["1.2.3.4:5"]
      "1.2.3.4:5" (by decide)⟩

end Tftp
namespace Tftp

/-- C5: constructing a `TftpServer` raises if and only if the configured
root does not exist, is not a directory, or is not readable; a readable
directory that is not writable still constructs successfully (with only
a warning logged, the `.ok true` outcome). -/
theorem server_init_root_validation :
    ∀ fs : RootFS,
      (isError (serverInitCheck fs) = true ↔
        ¬(fs.pathExists = true ∧ fs.isDir = true ∧ fs.readable = true)) ∧
      (fs.pathExists = true → fs.isDir = true → fs.readable = true →
        fs.writable = false → serverInitCheck fs = .ok true) := by
  intro fs
  obtain ⟨a, b, c, d⟩ := fs
  cases a <;> cases b <;> cases c <;> cases d <;>
    simp [serverInitCheck, isError]

theorem server_init_root_validation_witness :
    serverInitCheck ⟨true, true, true, false⟩ = .ok true :=
  (server_init_root_validation ⟨true, true, true, false⟩).2 rfl rfl rfl rfl

/-- C6: constructing a `TftpClient` whose options map has a `blksize`
entry raises if and only if the value is outside [8, 65464]; every
in-range value constructs successfully. -/
theorem client_init_blksize_validation :
    ∀ (opts : List (String × Int)) (size : Int),
      opts.lookup "blksize" = some size →
      ((isError (clientInitCheck opts) = true ↔ (size < 8 ∨ 65464 < size)) ∧
       (8 ≤ size → size ≤ 65464 → clientInitCheck opts = .ok ())) := by
  intro opts size h
  by_cases hin : size < 8 ∨ 65464 < size
  · have hval : clientInitCheck opts = .error "Invalid blksize" := by
      simp only [clientInitCheck, h, MIN_BLKSIZE, MAX_BLKSIZE]
      rw [if_pos]
      simp only [Bool.or_eq_true, decide_eq_true_eq, gt_iff_lt]
      exact hin
    refine ⟨?_, ?_⟩
    · rw [hval]
      simpa [isError] using hin
    · intro h1 h2
      exfalso
      rcases hin with h3 | h3
      · exact absurd h1 (not_le.mpr h3)
      · exact absurd h2 (not_le.mpr h3)
  · have hval : clientInitCheck opts = .ok () := by
      simp only [clientInitCheck, h, MIN_BLKSIZE, MAX_BLKSIZE]
      rw [if_neg]
      simp only [Bool.or_eq_true, decide_eq_true_eq, gt_iff_lt]
      exact hin
    refine ⟨?_, ?_⟩
    · rw [hval]
      simp only [isError, Bool.false_eq_true, false_iff]
      exact hin
    · intro h1 h2
      exact hval

theorem client_init_blksize_validation_witness :
    clientInitCheck [("blksize", 512)] = .ok () :=
  (client_init_blksize_validation [("blksize", 512)] 512 rfl).2 (by norm_num) (by norm_num)

theorem codec_roundtrip_witness :
    Packet.legal (Packet.rrq [104, 105] [111, 99, 116, 101, 116]
      [([98, 108, 107, 115, 105, 122, 101], [52, 48, 57, 54])]) = true ∧
    Packet.decode (Packet.encode (Packet.rrq [104, 105] [111, 99, 116, 101, 116]
      [([98, 108, 107, 115, 105, 122, 101], [52, 48, 57, 54])])) =
      some (Packet.rrq [104, 105] [111, 99, 116, 101, 116]
        [([98, 108, 107, 115, 105, 122, 101], [52, 48, 57, 54])]) :=
  ⟨by decide, codec_roundtrip _ (by decide)⟩

/-- C8: `get_file_size` obtains the size by a complete download of the
file into an in-memory buffer and returns the number of bytes that
landed there; if the download raises, it returns -1 instead of
raising. -/
theorem get_file_size_full_download :
    ∀ (download : String → Except String (List Nat)) (filename : String),
      (∀ buf, download filename = .ok buf →
        get_file_size download filename = (buf.length : Int)) ∧
      (∀ msg, download filename = .error msg →
        get_file_size download filename = -1) := by
  intro download filename
  constructor
  · intro buf h
    simp [get_file_size, h]
  · intro msg h
    simp [get_file_size, h]

theorem get_file_size_full_download_witness :
    get_file_size (fun _ => .ok [119, 111, 114, 108, 100]) "hello.txt" = 5 ∧
    get_file_size (fun _ => .error "Timeout") "hello.txt" = -1 :=
  ⟨(get_file_size_full_download (fun _ => .ok [119, 111, 114, 108, 100]) "hello.txt").1
      [119, 111, 114, 108, 100] rfl,
   (get_file_size_full_download (fun _ => .error "Timeout") "hello.txt").2 "Timeout" rfl⟩

/-- C9: `handle_write_request` reads `self.write_to_file`, an attribute
never defined on the server object; hence whenever the target path opens
successfully the helper takes its exception branch: no payload bytes are
written, the error is logged, and nothing propagates to the caller. -/
theorem handle_write_request_vestigial :
    tftpServerMembers.contains "write_to_file" = false ∧
    ∀ openOk : Bool, openOk = true →
      handle_write_request openOk =
        { wroteData := false, loggedError := true, raised := false } := by
  constructor
  · decide
  · intro openOk h
    subst h
    decide

theorem handle_write_request_vestigial_witness :
    handle_write_request true =
      { wroteData := false, loggedError := true, raised := false } :=
  handle_write_request_vestigial.2 true rfl

/-- C10: whenever `listen` returns — through graceful or immediate
shutdown — the epilogue of lines 153-155 has run, so `is_running` is
cleared and both shutdown flags are `False` again: the flag state equals
the one `__init__` establishes, and a later `listen()` starts from it. -/
theorem listen_return_resets_flags :
    ∀ (s : ServerState) (tr : List IterInput) (s1 : ServerState),
      listenRun s tr = some s1 →
      (s1.is_running, s1.shutdown_gracefully, s1.shutdown_immediately) = initFlagState := by
  intro s tr s1 h
  obtain ⟨s0, rfl⟩ := listenRun_finish h
  rfl

theorem listen_return_resets_flags_witness :
    (({ sessions := [], shutdown_gracefully := false, shutdown_immediately := false,
        is_running := false, sockClosed := true } : ServerState).is_running,
     ({ sessions := [], shutdown_gracefully := false, shutdown_immediately := false,
        is_running := false, sockClosed := true } : ServerState).shutdown_gracefully,
     ({ sessions := [], shutdown_gracefully := false, shutdown_immediately := false,
        is_running := false, sockClosed := true } : ServerState).shutdown_immediately) =
      initFlagState :=
  listen_return_resets_flags
    { sessions := [("1.2.3.4:5", ⟨7, 2⟩)], shutdown_gracefully := false,
      shutdown_immediately := true, is_running := true, sockClosed := false }
    [.selectFail] _ rfl

end Tftp
